import Mathlib

/-!
Verification development for the netd core of ossuary-pi
(src/netd/manager.py and src/netd/states.py), shallowly embedded in Lean.

Stateful methods of the Python class `NetworkManager` are modelled as pure
functions that take the mutable fields they read as explicit arguments
(grouped in `Mgr`), return the updated fields, and additionally return a
trace of the externally visible actions they perform (`Effect`), so that
claims about which side effects occur (callback notification, fallback
timer arming and cancellation, AP activation, nmcli invocations) can be
stated as facts about the trace.

Interactions with the NetworkManager D-Bus backend are modelled as input
data: a `DevSnapshot` stands for the answers the backend gives during one
poll (`wifi_device.get_state()`, the active connection, the device IP,
signal strength, AP client count); `Option (Except Unit DevSnapshot)`
distinguishes "no WiFi device" (`none`, the `if not self.wifi_device`
branch), "backend raised" (`some (Except.error ())`, caught by the
`except` clause of `_update_network_state`), and a normal reading.
-/

/-- The `NetworkState` enum of src/netd/states.py. -/
inductive NetworkState
  | unknown
  | disconnected
  | connecting
  | connected
  | failed
  | apMode
  | scanning
deriving DecidableEq, Repr

/-- The `NetworkStatus` dataclass of src/netd/states.py.  The wall-clock
`timestamp` field (`datetime.now()` in `__post_init__`) is not modelled;
all other fields are, with their Python defaults. -/
structure NetworkStatus where
  state : NetworkState
  ssid : Option String := none
  ip_address : Option String := none
  signal_strength : Option Int := none
  interface : Option String := none
  ap_active : Bool := false
  ap_ssid : Option String := none
  ap_clients : Nat := 0
  last_error : Option String := none
deriving DecidableEq, Repr

/-- The `APConfiguration` dataclass of src/netd/states.py (the fields the
manager reads). -/
structure APConfiguration where
  ssid : String := "ossuary-setup"
  password : Option String := none
  channel : Nat := 6
  ip_address : String := "192.168.42.1"
  subnet : String := "192.168.42.0/24"
deriving DecidableEq, Repr

/-- The values of `NM.DeviceState` distinguished by
`_update_network_state` (line 254 onward of manager.py); every other
device state falls into the final `else` branch, modelled by `other`. -/
inductive DevState
  | activated
  | prepare
  | config
  | failed
  | other
deriving DecidableEq, Repr

/-- What `wifi_device.get_active_connection()` yields when it is not
`None`: whether `_is_ap_connection` holds of its connection, and the SSID
`_get_connection_ssid` extracts (which can itself be `None`). -/
structure ActiveConn where
  isAp : Bool
  ssid : Option String
deriving DecidableEq, Repr

/-- One poll of the backend, as read by `_update_network_state`. -/
structure DevSnapshot where
  devState : DevState
  activeConn : Option ActiveConn
  deviceIp : Option String
  iface : String
  signal : Option Int
  apClients : Nat
deriving DecidableEq, Repr

/-- The mutable fields of `NetworkManager` that `_update_network_state`
reads and writes: `current_state`, `last_status`, and whether a
`fallback_timer` task is pending (`fallback_timer is not None and not
done`). -/
structure Mgr where
  currentState : NetworkState
  lastStatus : Option NetworkStatus
  fallbackTimerRunning : Bool
deriving DecidableEq, Repr

/-- The manager state right after `__init__` (lines 70-81 of manager.py):
`current_state = UNKNOWN`, `last_status = None`, no fallback timer. -/
def initMgr : Mgr :=
  { currentState := NetworkState.unknown
    lastStatus := none
    fallbackTimerRunning := false }

/-- Externally visible actions of the manager, recorded as a trace. -/
inductive Effect
  | notifyCallbacks (old new : NetworkState)
  | startFallbackTimer
  | cancelFallbackTimer
  | activateConnection (ssid : String)
  | addAndActivateConnection (ssid : String) (password : Option String)
  | startAccessPoint
  | attemptConnect (ssid : String)
  | nmcliDisconnectDevice
  | nmcliDeleteConnection (name : String)
  | nmcliCreateHotspot (ssid : String)
  | nmcliDownConnection (name : String)
  | configureHotspot (name : String)
  | sleep (seconds : Nat)
deriving DecidableEq, Repr

/-- `_cancel_fallback_timer` (lines 996-1001): if a pending (not done)
timer task exists it is cancelled synchronously and the handle cleared;
otherwise nothing happens. -/
def cancelFallbackTimerM (m : Mgr) (effs : List Effect) : Mgr × List Effect :=
  if m.fallbackTimerRunning then
    ({ m with fallbackTimerRunning := false }, effs ++ [Effect.cancelFallbackTimer])
  else (m, effs)

/-- `_start_fallback_timer` (lines 989-994): first cancels any pending
timer, then creates the `_fallback_to_ap` task. -/
def startFallbackTimerM (m : Mgr) (effs : List Effect) : Mgr × List Effect :=
  let r := cancelFallbackTimerM m effs
  ({ r.1 with fallbackTimerRunning := true }, r.2 ++ [Effect.startFallbackTimer])

/-- The status built by the `if not self.wifi_device` branch of
`_update_network_state` (lines 245-251): only `state`, `ssid`,
`ip_address`, `interface` and `signal_strength` are passed, every other
field keeps its dataclass default. -/
def wiredOnlyStatus : NetworkStatus :=
  { state := NetworkState.disconnected
    ssid := none
    ip_address := none
    interface := some "wired-only"
    signal_strength := some 0 }

/-- The state/ssid/ip derivation and status construction of
`_update_network_state` for a present WiFi device (lines 254-300 of
manager.py). -/
def deriveStatus (ap : APConfiguration) (snap : DevSnapshot) : NetworkStatus :=
  let sSsidIp : NetworkState × Option String × Option String :=
    match snap.devState, snap.activeConn with
    | DevState.activated, some ac =>
      if ac.isAp then (NetworkState.apMode, some ap.ssid, some ap.ip_address)
      else (NetworkState.connected, ac.ssid, snap.deviceIp)
    | DevState.prepare, _ => (NetworkState.connecting, none, none)
    | DevState.config, _ => (NetworkState.connecting, none, none)
    | DevState.failed, _ => (NetworkState.failed, none, none)
    | _, _ => (NetworkState.disconnected, none, none)
  let state := sSsidIp.1
  let signal : Option Int :=
    if state = NetworkState.connected ∧ snap.activeConn.isSome then snap.signal else none
  let apActive : Bool := decide (state = NetworkState.apMode)
  { state := state
    ssid := sSsidIp.2.1
    ip_address := sSsidIp.2.2
    signal_strength := signal
    interface := some snap.iface
    ap_active := apActive
    ap_ssid := if apActive then some ap.ssid else none
    ap_clients := if apActive then snap.apClients else 0 }

/-- `_update_network_state` (lines 239-322 of manager.py).  The input
`dev` is `none` when `self.wifi_device` is `None`, `some (Except.error ())`
when the backend raises (caught and logged at line 321, leaving every
field unchanged since the body raises before any assignment), and
`some (Except.ok snap)` for a normal poll.  Returns the updated manager
fields and the trace of actions taken. -/
def updateNetworkState (ap : APConfiguration) (dev : Option (Except Unit DevSnapshot))
    (m : Mgr) : Mgr × List Effect :=
  match dev with
  | none =>
    ({ m with currentState := NetworkState.disconnected, lastStatus := some wiredOnlyStatus }, [])
  | some (Except.error _) => (m, [])
  | some (Except.ok snap) =>
    let status := deriveStatus ap snap
    let s := status.state
    if s ≠ m.currentState then
      let m1 : Mgr := { m with currentState := s, lastStatus := some status }
      let effs := [Effect.notifyCallbacks m.currentState s]
      if s = NetworkState.disconnected then startFallbackTimerM m1 effs
      else if s = NetworkState.connected then cancelFallbackTimerM m1 effs
      else (m1, effs)
    else ({ m with lastStatus := some status }, [])

/-- `get_status` (lines 234-237): runs `_update_network_state`, then
returns `self.last_status`. -/
def getStatusM (ap : APConfiguration) (dev : Option (Except Unit DevSnapshot))
    (m : Mgr) : Mgr × Option NetworkStatus :=
  let m1 := (updateNetworkState ap dev m).1
  (m1, m1.lastStatus)

/-- A sequence of `_update_network_state` calls, threading the manager
state (as the poll loop of `_monitor_network_state` does). -/
def runUpdates (ap : APConfiguration) (inputs : List (Option (Except Unit DevSnapshot)))
    (m : Mgr) : Mgr :=
  inputs.foldl (fun acc i => (updateNetworkState ap i acc).1) m

/-- Outcome of `_wait_for_connection_state` inside `connect_to_network`
(lines 535-539): the poll loop observed `CONNECTED`, observed `FAILED`,
or the timeout elapsed (in which case `_wait_for_connection_state` raises
`TimeoutError`, caught by the `except Exception` clause at line 551). -/
inductive ConnectWaitOutcome
  | connected
  | failed
  | timedOut
deriving DecidableEq, Repr

/-- `connect_to_network` (lines 505-559 of manager.py).  `hasDevice`
models `self.wifi_device`; `known` the SSIDs of `_get_known_connections`;
`outcome` what the bounded wait observes.  Returns the boolean result and
the trace: on `FAILED` the code logs, sleeps 2 s and calls
`start_access_point()` before returning `False`; on timeout the raised
`TimeoutError` lands in the `except` clause, which also sleeps 2 s and
calls `start_access_point()` before returning `False`. -/
def connectToNetwork (hasDevice : Bool) (known : List String) (ssid : String)
    (password : Option String) (outcome : ConnectWaitOutcome) : Bool × List Effect :=
  if !hasDevice then (false, [])
  else
    let activation :=
      if ssid ∈ known then [Effect.activateConnection ssid]
      else [Effect.addAndActivateConnection ssid password]
    match outcome with
    | ConnectWaitOutcome.connected => (true, activation)
    | ConnectWaitOutcome.failed =>
      (false, activation ++ [Effect.sleep 2, Effect.startAccessPoint])
    | ConnectWaitOutcome.timedOut =>
      (false, activation ++ [Effect.sleep 2, Effect.startAccessPoint])

/-- One entry of the list `get_known_networks` returns (lines 1026-1047):
an SSID together with `last_used`, an ISO-8601 string when the stored
profile has a nonzero timestamp and `None` otherwise. -/
structure KnownNetwork where
  ssid : String
  last_used : Option String
deriving DecidableEq, Repr

/-- The sort key `lambda x: x.get("last_used", "")` of line 579: the dict
always carries the key, so the Python key is the stored value itself
(`None` or an ISO string); the `""` default is never used.  `getD ""` here
only serves the cases in which the key value is never compared. -/
def lastUsedKey (n : KnownNetwork) : String := n.last_used.getD ""

/-- Stable descending insertion by a key into an already-sorted list: an
element is placed before the first entry whose key is not larger.  Any
stable sort agrees with Python `sorted(..., reverse=True)`, which is
stable and compares reversed. -/
def insertDescBy (key : KnownNetwork → String) (x : KnownNetwork) :
    List KnownNetwork → List KnownNetwork
  | [] => [x]
  | y :: ys =>
    if key y ≤ key x then x :: y :: ys else y :: insertDescBy key x ys

/-- Stable descending insertion sort by a key (see `insertDescBy`). -/
def sortDescBy (key : KnownNetwork → String) : List KnownNetwork → List KnownNetwork
  | [] => []
  | x :: xs => insertDescBy key x (sortDescBy key xs)

/-- `sorted(known_networks, key=lambda x: x.get("last_used", ""), reverse=True)`
of line 579.  When the list has at least two elements and any entry has
`last_used = None`, CPython evaluates a `None < str` (or `None < None`)
comparison and raises `TypeError` — modelled as `Except.error` — which the
outer `except` clause of `_attempt_startup_connection` turns into a
fallback-timer start.  With no such entry (or fewer than two elements, in
which case `sorted` never compares), it returns the stable descending
order by the ISO string key. -/
def sortKnownDesc (ks : List KnownNetwork) : Except Unit (List KnownNetwork) :=
  if 2 ≤ ks.length ∧ ks.any (fun n => n.last_used.isNone) then Except.error ()
  else Except.ok (sortDescBy lastUsedKey ks)

/-- Outcome of one quick startup attempt
`asyncio.wait_for(self.connect_to_network(ssid, None), timeout=15.0)`
(lines 585-599): `success` when it returns `True`; `failure` when it
returns `False`; `timeout` for `asyncio.TimeoutError`; `error` for any
other exception.  All three non-success outcomes are handled identically
(log, then move on). -/
inductive AttemptOutcome
  | success
  | failure
  | timeout
  | error
deriving DecidableEq, Repr

/-- The `for network in sorted(...)` loop of `_attempt_startup_connection`
(lines 579-606): each network in order is attempted; on success the
function returns at once; otherwise it sleeps 2 s and moves to the next;
when the list is exhausted it starts the fallback timer.  The attempts
delegate to `connect_to_network`, abstracted here by the `oracle`; the
trace records only the actions of `_attempt_startup_connection` itself. -/
def startupLoop (oracle : String → AttemptOutcome) : List KnownNetwork → List Effect
  | [] => [Effect.startFallbackTimer]
  | n :: rest =>
    match oracle n.ssid with
    | AttemptOutcome.success => [Effect.attemptConnect n.ssid]
    | _ => Effect.attemptConnect n.ssid :: Effect.sleep 2 :: startupLoop oracle rest

/-- `_attempt_startup_connection` (lines 561-611 of manager.py): skip when
already connected; with no known networks start the fallback timer; else
sort by recency (a `TypeError` from the sort is caught by the outer
`except`, which also starts the fallback timer) and run the attempt
loop. -/
def attemptStartupConnection (cur : NetworkState) (known : List KnownNetwork)
    (oracle : String → AttemptOutcome) : List Effect :=
  if cur = NetworkState.connected then []
  else if known = [] then [Effect.startFallbackTimer]
  else
    match sortKnownDesc known with
    | Except.error _ => [Effect.startFallbackTimer]
    | Except.ok sortedKnown => startupLoop oracle sortedKnown

/-- `_determine_security_type` (lines 479-503 of manager.py), with the NM
constants `KEY_MGMT_PSK = 0x100`, `KEY_MGMT_802_1X = 0x200` and
`PRIVACY = 0x1` (the `getattr` fallbacks coincide with the real values).
Python falls off the end of the function — returning `None` — whenever
the taken `if rsn_flags:` (resp. `elif wpa_flags:`) branch matches
neither key-management bit, so the result type is `Option String`. -/
def determineSecurityType (flags wpa_flags rsn_flags : Nat) : Option String :=
  if rsn_flags ≠ 0 then
    if rsn_flags &&& 0x100 ≠ 0 then some "WPA2-PSK"
    else if rsn_flags &&& 0x200 ≠ 0 then some "WPA2-Enterprise"
    else none
  else if wpa_flags ≠ 0 then
    if wpa_flags &&& 0x100 ≠ 0 then some "WPA-PSK"
    else if wpa_flags &&& 0x200 ≠ 0 then some "WPA-Enterprise"
    else none
  else if flags &&& 0x1 ≠ 0 then some "WEP"
  else some "Open"

/-- One access point as read during `scan_networks` (lines 406-420 of
manager.py): `ssid` is `none` when `ap.get_ssid()` returns no bytes
(decoding of the bytes is abstracted to the resulting string). -/
structure ApScan where
  ssid : Option String
  bssid : String
  frequency : Nat
  strength : Nat
  flags : Nat
  wpaFlags : Nat
  rsnFlags : Nat
deriving DecidableEq, Repr

/-- The `WiFiNetwork` dataclass of src/netd/states.py, for the fields
`scan_networks` fills (`last_connected` keeps its default and is
omitted).  `security_type` is `Option String` because
`_determine_security_type` can fall through and return `None`. -/
structure WiFiNetwork where
  ssid : String
  bssid : String
  frequency : Nat
  signal_strength : Nat
  security : Bool
  security_type : Option String
  connected : Bool
  known : Bool
deriving DecidableEq, Repr

/-- Stable descending insertion by signal strength (the
`networks.sort(key=lambda n: n.signal_strength, reverse=True)` of line
452; any stable sort agrees with the stable Python sort). -/
def insertBySignalDesc (x : WiFiNetwork) : List WiFiNetwork → List WiFiNetwork
  | [] => [x]
  | y :: ys =>
    if y.signal_strength ≤ x.signal_strength then x :: y :: ys
    else y :: insertBySignalDesc x ys

/-- Stable descending sort by signal strength (see `insertBySignalDesc`). -/
def sortBySignalDesc : List WiFiNetwork → List WiFiNetwork
  | [] => []
  | x :: xs => insertBySignalDesc x (sortBySignalDesc xs)

/-- `scan_networks` (lines 384-458 of manager.py).  With no WiFi device it
logs a warning and returns the empty list (line 388).  Otherwise each
access point with a nonempty SSID is turned into a `WiFiNetwork`:
`security` is `bool((flags & PRIVACY) or wpa_flags or rsn_flags)` with
`PRIVACY = 0x1`, `security_type` comes from `_determine_security_type`,
`known` from membership in the saved-connection SSIDs, `connected` from
comparing the BSSID with the active access point; the result is sorted by
descending signal strength. -/
def scanNetworks (hasDevice : Bool) (accessPoints : List ApScan)
    (knownSsids : List String) (activeBssid : Option String) : List WiFiNetwork :=
  if !hasDevice then []
  else
    let networks := accessPoints.filterMap fun ap =>
      match ap.ssid with
      | none => none
      | some s =>
        if s = "" then none
        else
          some { ssid := s
                 bssid := ap.bssid
                 frequency := ap.frequency
                 signal_strength := ap.strength
                 security := (ap.flags &&& 0x1 ≠ 0) || ap.wpaFlags ≠ 0 || ap.rsnFlags ≠ 0
                 security_type := determineSecurityType ap.flags ap.wpaFlags ap.rsnFlags
                 connected := activeBssid = some ap.bssid
                 known := s ∈ knownSsids }
    sortBySignalDesc networks

/-- `_fallback_to_ap` (lines 1003-1015): the timer task sleeps for the
fallback timeout and then, only if the state is still `DISCONNECTED`,
calls `start_access_point()`.  `cur` is the state observed after the
sleep. -/
def fallbackToAp (fallbackTimeout : Nat) (cur : NetworkState) : List Effect :=
  Effect.sleep fallbackTimeout ::
    (if cur = NetworkState.disconnected then [Effect.startAccessPoint] else [])

/-- One NetworkManager connection profile as it appears to the nmcli
calls of `start_access_point` / `stop_access_point`, which parse the
lines of `nmcli connection show`: `name` is the first column
(`line.split()[0]`), `isWifi` whether the lowercased line contains
"wifi", `hasHotspotWord` whether it contains "hotspot", `hasApSsid`
whether it contains the configured AP SSID, and `active` whether the
profile is currently active. -/
structure Conn where
  name : String
  isWifi : Bool
  hasHotspotWord : Bool
  hasApSsid : Bool
  active : Bool
deriving DecidableEq, Repr

/-- The connection profile `nmcli device wifi hotspot` creates (default
profile name "Hotspot", so its `nmcli connection show` line contains
"hotspot" case-insensitively but not the configured SSID). -/
def hotspotConn : Conn :=
  { name := "Hotspot"
    isWifi := true
    hasHotspotWord := true
    hasApSsid := false
    active := true }

/-- Outcome of the `nmcli device wifi hotspot` subprocess of
`start_access_point` (line 705): exit code 0, a generic failure, or a
failure whose stderr contains "already exists". -/
inductive HotspotResult
  | success
  | failure
  | alreadyExists
deriving DecidableEq, Repr

/-- The profiles counting as active AP profiles: active and matching the
hotspot naming or the configured SSID. -/
def activeApProfiles (conns : List Conn) : List Conn :=
  conns.filter fun c => c.active && (c.hasHotspotWord || c.hasApSsid)

/-- `start_access_point` (lines 670-753 of manager.py).  Unconditionally:
disconnect the WiFi device (deactivating its profiles), delete every
profile whose `nmcli connection show` line contains "hotspot" or the
configured SSID, then run `nmcli device wifi hotspot`.  On exit code 0 the
new profile is located and configured (`_configure_hotspot_connection`,
abstracted as one `configureHotspot` action standing for its six
`nmcli connection modify` calls, which do not alter the profile set), the
code sleeps 5 s, re-polls, and returns `True` whether or not the re-poll
confirmed AP mode (lines 734-739).  On "already exists"
`_activate_existing_hotspot` re-reads the profile list — from which the
cleanup has just deleted every SSID match — finds nothing and returns
`False`; any other failure returns `False`. -/
def startAccessPoint (apSsid : String) (res : HotspotResult) (conns : List Conn) :
    Bool × List Conn × List Effect :=
  let conns1 := conns.map fun c => if c.isWifi then { c with active := false } else c
  let matched := conns1.filter fun c => c.hasHotspotWord || c.hasApSsid
  let effs1 := Effect.nmcliDisconnectDevice ::
    matched.map (fun c => Effect.nmcliDeleteConnection c.name)
  let conns2 := conns1.filter fun c => !(c.hasHotspotWord || c.hasApSsid)
  match res with
  | HotspotResult.success =>
    (true, conns2 ++ [hotspotConn],
      effs1 ++ [Effect.nmcliCreateHotspot apSsid,
                Effect.configureHotspot hotspotConn.name, Effect.sleep 5])
  | HotspotResult.failure =>
    (false, conns2, effs1 ++ [Effect.nmcliCreateHotspot apSsid])
  | HotspotResult.alreadyExists =>
    (false, conns2, effs1 ++ [Effect.nmcliCreateHotspot apSsid])

/-- The active-pass match of `stop_access_point` (lines 928-929): a line
of `nmcli connection show --active` containing "wifi" and either
"hotspot" or the configured SSID. -/
def stopMatchActive (c : Conn) : Bool :=
  c.isWifi && (c.hasHotspotWord || c.hasApSsid)

/-- The body of the first loop of `stop_access_point` for one line of the
captured `--active` listing: on a match, `nmcli connection down` is run
(`downOk` models its exit code); on success the stop flag is set and the
profile also deleted. -/
def stopStep (downOk : String → Bool) (acc : List Conn × Bool × List Effect)
    (c : Conn) : List Conn × Bool × List Effect :=
  if stopMatchActive c then
    let effs := acc.2.2 ++ [Effect.nmcliDownConnection c.name]
    if downOk c.name then
      (acc.1.filter (fun d => d.name ≠ c.name), true,
        effs ++ [Effect.nmcliDeleteConnection c.name])
    else (acc.1, acc.2.1, effs)
  else acc

/-- `stop_access_point` (lines 911-979 of manager.py).  First pass: walk
the captured active connections, downing and deleting each hotspot/SSID
match.  Second pass (only when nothing was stopped): delete every profile
whose line contains the configured SSID, active or not.  Then sleep 3 s
and re-poll.  The function returns `True` on every non-raising path: with
`ap_stopped` set, through line 972, and with nothing found, through line
975 ("not an error if no hotspot was running"). -/
def stopAccessPoint (downOk : String → Bool) (conns : List Conn) :
    Bool × List Conn × List Effect :=
  let activeList := conns.filter (fun c => c.active)
  let pass1 := activeList.foldl (stopStep downOk) (conns, false, [])
  if pass1.2.1 then (true, pass1.1, pass1.2.2 ++ [Effect.sleep 3])
  else
    let matched2 := pass1.1.filter fun c => c.hasApSsid
    let world2 := pass1.1.filter fun c => !c.hasApSsid
    (true, world2,
      pass1.2.2 ++ matched2.map (fun c => Effect.nmcliDeleteConnection c.name)
        ++ [Effect.sleep 3])

/-- A connect-attempt oracle under which every attempt fails. -/
def allFailOracle : String → AttemptOutcome := fun _ => AttemptOutcome.failure

/-- A connect-attempt oracle under which every attempt succeeds. -/
def allSucceedOracle : String → AttemptOutcome := fun _ => AttemptOutcome.success

/-- An nmcli-down oracle under which every `nmcli connection down`
succeeds. -/
def alwaysDownOk : String → Bool := fun _ => true

/-- The currently active profiles of a connection list. -/
def activeConns (conns : List Conn) : List Conn :=
  conns.filter fun c => c.active

/-- Whether an action is an `nmcli connection down` invocation. -/
def isDownEffect : Effect → Bool
  | Effect.nmcliDownConnection _ => true
  | _ => false

/-! ## Helper lemmas -/

theorem startFallbackTimerM_lastStatus (m : Mgr) (effs : List Effect) :
    (startFallbackTimerM m effs).1.lastStatus = m.lastStatus := by
  unfold startFallbackTimerM cancelFallbackTimerM
  split <;> rfl

theorem cancelFallbackTimerM_lastStatus (m : Mgr) (effs : List Effect) :
    (cancelFallbackTimerM m effs).1.lastStatus = m.lastStatus := by
  unfold cancelFallbackTimerM
  split <;> rfl

theorem deriveStatus_ap_active (ap : APConfiguration) (snap : DevSnapshot) :
    (deriveStatus ap snap).ap_active =
      decide ((deriveStatus ap snap).state = NetworkState.apMode) := by
  unfold deriveStatus
  rcases snap with ⟨ds, ac, ip, ifc, sig, cl⟩
  cases ds <;> cases ac <;> simp

theorem updateNetworkState_ok_lastStatus (ap : APConfiguration) (snap : DevSnapshot) (m : Mgr) :
    (updateNetworkState ap (some (Except.ok snap)) m).1.lastStatus =
      some (deriveStatus ap snap) := by
  simp only [updateNetworkState]
  split
  · split
    · rw [startFallbackTimerM_lastStatus]
    · split
      · rw [cancelFallbackTimerM_lastStatus]
      · rfl
  · rfl

theorem updateNetworkState_error_id (ap : APConfiguration) (m : Mgr) :
    (updateNetworkState ap (some (Except.error ())) m).1 = m := rfl

theorem startupLoop_no_ap (oracle : String → AttemptOutcome) (l : List KnownNetwork) :
    Effect.startAccessPoint ∉ startupLoop oracle l := by
  induction l with
  | nil => simp [startupLoop]
  | cons n rest ih =>
    cases horacle : oracle n.ssid <;> simp [startupLoop, horacle] <;> exact ih

theorem attemptStartup_no_ap (s : NetworkState) (ks : List KnownNetwork)
    (oracle : String → AttemptOutcome) :
    Effect.startAccessPoint ∉ attemptStartupConnection s ks oracle := by
  unfold attemptStartupConnection
  split
  · simp
  · split
    · simp
    · split
      · simp
      · exact startupLoop_no_ap _ _

theorem sortKnownDesc_two (ssA ssB t1 t2 : String) (h12 : t1 < t2) :
    sortKnownDesc [⟨ssA, some t1⟩, ⟨ssB, some t2⟩] =
      Except.ok [⟨ssB, some t2⟩, ⟨ssA, some t1⟩] := by
  simp [sortKnownDesc, sortDescBy, insertDescBy, lastUsedKey, not_le.mpr h12]

theorem activeApProfiles_filter_append (l : List Conn) :
    activeApProfiles ((l.filter fun c => !(c.hasHotspotWord || c.hasApSsid)) ++ [hotspotConn]) =
      [hotspotConn] := by
  unfold activeApProfiles
  rw [List.filter_append]
  have h1 : (l.filter fun c => !(c.hasHotspotWord || c.hasApSsid)).filter
      (fun c => c.active && (c.hasHotspotWord || c.hasApSsid)) = [] := by
    rw [List.filter_eq_nil_iff]
    intro c hc
    have h2 := (List.mem_filter.mp hc).2
    simp at h2
    simp [h2.1, h2.2]
  rw [h1]
  rfl

theorem activeApProfiles_after_start (apSsid : String) (conns : List Conn) :
    activeApProfiles (startAccessPoint apSsid HotspotResult.success conns).2.1 = [hotspotConn] := by
  have hw : (startAccessPoint apSsid HotspotResult.success conns).2.1 =
      ((conns.map fun c => if c.isWifi then { c with active := false } else c).filter
        fun c => !(c.hasHotspotWord || c.hasApSsid)) ++ [hotspotConn] := rfl
  rw [hw, activeApProfiles_filter_append]

theorem stopStep_skip (downOk : String → Bool) (acc : List Conn × Bool × List Effect)
    (c : Conn) (hc : stopMatchActive c = false) : stopStep downOk acc c = acc := by
  simp [stopStep, hc]

theorem foldl_stopStep_id (downOk : String → Bool) (l : List Conn)
    (h : ∀ c ∈ l, stopMatchActive c = false) (acc : List Conn × Bool × List Effect) :
    l.foldl (stopStep downOk) acc = acc := by
  induction l generalizing acc with
  | nil => rfl
  | cons c rest ih =>
    rw [List.foldl_cons, stopStep_skip downOk acc c (h c (List.mem_cons_self c rest))]
    exact ih (fun d hd => h d (List.mem_cons_of_mem _ hd)) acc

/-! ## Claim theorems -/

/-- C1, counterexample: a `connect_to_network` call whose bounded wait
ends in `Failed` returns `false` but — against the claim — DOES itself
activate AP mode: `Effect.startAccessPoint` is in its own trace (lines
545-549 of manager.py). -/
theorem c1_failed_connect_starts_ap :
    (connectToNetwork true ["HomeNet"] "HomeNet" none ConnectWaitOutcome.failed).1 = false
    ∧ Effect.startAccessPoint ∈
        (connectToNetwork true ["HomeNet"] "HomeNet" none ConnectWaitOutcome.failed).2 := by
  refine ⟨rfl, ?_⟩
  decide

/-- C1, amended: every `connect_to_network` call that ends in `Failed` or
in a timeout returns `false` AND itself calls `start_access_point()`
(after a 2-second grace sleep); when invoked from the startup
reconnection path, the failure is additionally followed by an attempt on
the next known network (the loop of `_attempt_startup_connection`
continues). -/
theorem c1_amended_failure_starts_ap (known : List String) (ssid : String)
    (password : Option String) (outcome : ConnectWaitOutcome)
    (oracle : String → AttemptOutcome) (n : KnownNetwork) (rest : List KnownNetwork)
    (hout : outcome = ConnectWaitOutcome.failed ∨ outcome = ConnectWaitOutcome.timedOut)
    (hor : oracle n.ssid = AttemptOutcome.failure) :
    ((connectToNetwork true known ssid password outcome).1 = false
      ∧ Effect.startAccessPoint ∈ (connectToNetwork true known ssid password outcome).2)
    ∧ startupLoop oracle (n :: rest) =
        Effect.attemptConnect n.ssid :: Effect.sleep 2 :: startupLoop oracle rest := by
  refine ⟨?_, by simp [startupLoop, hor]⟩
  rcases hout with h | h <;> subst h <;>
    refine ⟨by simp [connectToNetwork], ?_⟩ <;>
    simp [connectToNetwork]

/-- C1, witness: the amended theorem applied at a concrete failed
attempt and a concrete startup list. -/
theorem c1_amended_witness :
    ((connectToNetwork true ["A"] "X" none ConnectWaitOutcome.failed).1 = false
      ∧ Effect.startAccessPoint ∈
          (connectToNetwork true ["A"] "X" none ConnectWaitOutcome.failed).2)
    ∧ startupLoop allFailOracle [⟨"A", none⟩] =
        Effect.attemptConnect "A" :: Effect.sleep 2 :: startupLoop allFailOracle [] :=
  c1_amended_failure_starts_ap ["A"] "X" none ConnectWaitOutcome.failed allFailOracle
    ⟨"A", none⟩ [] (Or.inl rfl) rfl

/-- C2, counterexample: a poll that observes the transition
`Disconnected -> ApMode` while the fallback timer is pending leaves the
timer running and emits no cancellation, so the timer is NOT cancelled on
a transition into `ApMode` and the running-iff-Disconnected invariant
fails (lines 316-319 of manager.py cancel only on `CONNECTED`). -/
theorem c2_ap_transition_leaves_timer :
    (updateNetworkState {} (some (Except.ok
        { devState := DevState.activated, activeConn := some { isAp := true, ssid := none },
          deviceIp := none, iface := "wlan0", signal := none, apClients := 0 }))
      { currentState := NetworkState.disconnected, lastStatus := none,
        fallbackTimerRunning := true }).1.currentState = NetworkState.apMode
    ∧ (updateNetworkState {} (some (Except.ok
        { devState := DevState.activated, activeConn := some { isAp := true, ssid := none },
          deviceIp := none, iface := "wlan0", signal := none, apClients := 0 }))
      { currentState := NetworkState.disconnected, lastStatus := none,
        fallbackTimerRunning := true }).1.fallbackTimerRunning = true
    ∧ Effect.cancelFallbackTimer ∉ (updateNetworkState {} (some (Except.ok
        { devState := DevState.activated, activeConn := some { isAp := true, ssid := none },
          deviceIp := none, iface := "wlan0", signal := none, apClients := 0 }))
      { currentState := NetworkState.disconnected, lastStatus := none,
        fallbackTimerRunning := true }).2 := by
  refine ⟨rfl, rfl, ?_⟩
  decide

/-- C2, amended: after a successful poll, the fallback timer is pending
exactly when the observed transition entered `Disconnected` (started),
or entered `Connected` (cancelled synchronously), and otherwise —
including transitions into `ApMode`, `Connecting` and `Failed` — it keeps
its previous pending state; the fired timer itself re-checks the state
and activates AP mode only when still `Disconnected`. -/
theorem c2_amended_timer_transitions (ap : APConfiguration) (snap : DevSnapshot)
    (m : Mgr) (ft : Nat) :
    (updateNetworkState ap (some (Except.ok snap)) m).1.fallbackTimerRunning =
      (if (deriveStatus ap snap).state ≠ m.currentState ∧
          (deriveStatus ap snap).state = NetworkState.disconnected then true
       else if (deriveStatus ap snap).state ≠ m.currentState ∧
          (deriveStatus ap snap).state = NetworkState.connected then false
       else m.fallbackTimerRunning)
    ∧ fallbackToAp ft NetworkState.apMode = [Effect.sleep ft]
    ∧ fallbackToAp ft NetworkState.disconnected = [Effect.sleep ft, Effect.startAccessPoint] := by
  refine ⟨?_, rfl, rfl⟩
  by_cases h1 : (deriveStatus ap snap).state = m.currentState
  · simp [updateNetworkState, h1]
  · by_cases h2 : (deriveStatus ap snap).state = NetworkState.disconnected
    · have h1' : ¬NetworkState.disconnected = m.currentState := h2 ▸ h1
      by_cases hr : m.fallbackTimerRunning <;>
        simp [updateNetworkState, h1', h2, startFallbackTimerM, cancelFallbackTimerM, hr]
    · by_cases h3 : (deriveStatus ap snap).state = NetworkState.connected
      · have h1' : ¬NetworkState.connected = m.currentState := h3 ▸ h1
        by_cases hr : m.fallbackTimerRunning <;>
          simp [updateNetworkState, h1', h2, h3, cancelFallbackTimerM, hr]
      · simp [updateNetworkState, h1, h2, h3]

/-- C3, counterexample: calling `start_access_point` while an AP profile
for the configured SSID is active does not return immediately — it tears
the existing profile down (a delete of that profile is in the trace) and
recreates it, though it does still return `true`. -/
theorem c3_start_ap_tears_down :
    Effect.nmcliDeleteConnection "ossuary-setup" ∈
      (startAccessPoint "ossuary-setup" HotspotResult.success
        [{ name := "ossuary-setup", isWifi := true, hasHotspotWord := false,
           hasApSsid := true, active := true }]).2.2
    ∧ (startAccessPoint "ossuary-setup" HotspotResult.success
        [{ name := "ossuary-setup", isWifi := true, hasHotspotWord := false,
           hasApSsid := true, active := true }]).1 = true := by
  refine ⟨?_, rfl⟩
  decide

/-- C3, amended: `start_access_point` is not short-circuiting — every
call, including a repeated one while AP mode is active, disconnects the
device, deletes matching profiles and creates a fresh hotspot profile —
but calling it twice in a row (with the hotspot command succeeding)
returns `true` both times and leaves exactly one active AP profile. -/
theorem c3_amended_recreate (conns : List Conn) :
    (startAccessPoint "ossuary-setup" HotspotResult.success conns).1 = true
    ∧ (startAccessPoint "ossuary-setup" HotspotResult.success
        (startAccessPoint "ossuary-setup" HotspotResult.success conns).2.1).1 = true
    ∧ activeApProfiles (startAccessPoint "ossuary-setup" HotspotResult.success
        (startAccessPoint "ossuary-setup" HotspotResult.success conns).2.1).2.1 = [hotspotConn]
    ∧ Effect.nmcliDisconnectDevice ∈ (startAccessPoint "ossuary-setup" HotspotResult.success
        (startAccessPoint "ossuary-setup" HotspotResult.success conns).2.1).2.2 := by
  refine ⟨rfl, rfl, activeApProfiles_after_start _ _, ?_⟩
  simp [startAccessPoint]

/-- C4: every `NetworkStatus` a state update produces — the one derived
from a device poll and the wired-only one, which are exactly the statuses
`_update_network_state` ever stores — satisfies `ap_active = true` if and
only if `state = ApMode`. -/
theorem c4_ap_active_iff_ap_mode (ap : APConfiguration) (snap : DevSnapshot) (m : Mgr) :
    ((deriveStatus ap snap).ap_active = true ↔ (deriveStatus ap snap).state = NetworkState.apMode)
    ∧ (wiredOnlyStatus.ap_active = true ↔ wiredOnlyStatus.state = NetworkState.apMode)
    ∧ (updateNetworkState ap (some (Except.ok snap)) m).1.lastStatus = some (deriveStatus ap snap)
    ∧ (updateNetworkState ap none m).1.lastStatus = some wiredOnlyStatus := by
  refine ⟨?_, ?_, updateNetworkState_ok_lastStatus ap snap m, rfl⟩
  · rw [deriveStatus_ap_active]
    exact decide_eq_true_iff
  · simp [wiredOnlyStatus]

/-- C5: startup reconnection sorts known networks by descending
`last_used` (the more recent "B" is attempted before "A"), stops at the
first success, starts the fallback timer when the list is empty or
exhausted, and never calls `start_access_point` directly. -/
theorem c5_startup_order_and_fallback (oracleF oracleS : String → AttemptOutcome)
    (s : NetworkState) (ks : List KnownNetwork) (ssA ssB t1 t2 : String)
    (h12 : t1 < t2) (hS : oracleS ssB = AttemptOutcome.success) :
    sortKnownDesc [⟨ssA, some t1⟩, ⟨ssB, some t2⟩] =
      Except.ok [⟨ssB, some t2⟩, ⟨ssA, some t1⟩]
    ∧ attemptStartupConnection NetworkState.unknown [⟨ssA, some t1⟩, ⟨ssB, some t2⟩] oracleF =
        startupLoop oracleF [⟨ssB, some t2⟩, ⟨ssA, some t1⟩]
    ∧ attemptStartupConnection NetworkState.unknown [⟨ssA, some t1⟩, ⟨ssB, some t2⟩] oracleS =
        [Effect.attemptConnect ssB]
    ∧ attemptStartupConnection NetworkState.unknown [] oracleF = [Effect.startFallbackTimer]
    ∧ Effect.startAccessPoint ∉ attemptStartupConnection s ks oracleF := by
  have hsort := sortKnownDesc_two ssA ssB t1 t2 h12
  refine ⟨hsort, ?_, ?_, rfl, attemptStartup_no_ap s ks oracleF⟩
  · simp [attemptStartupConnection, hsort]
  · simp [attemptStartupConnection, hsort, startupLoop, hS]

/-- C5, witness: the startup-ordering theorem applied at concrete ISO
timestamps and oracles. -/
theorem c5_witness :
    (("2024-05-01" : String) < "2025-05-01"
      ∧ allSucceedOracle "B" = AttemptOutcome.success)
    ∧ (sortKnownDesc [⟨"A", some "2024-05-01"⟩, ⟨"B", some "2025-05-01"⟩] =
        Except.ok [⟨"B", some "2025-05-01"⟩, ⟨"A", some "2024-05-01"⟩]
      ∧ attemptStartupConnection NetworkState.unknown
          [⟨"A", some "2024-05-01"⟩, ⟨"B", some "2025-05-01"⟩] allFailOracle =
          startupLoop allFailOracle [⟨"B", some "2025-05-01"⟩, ⟨"A", some "2024-05-01"⟩]
      ∧ attemptStartupConnection NetworkState.unknown
          [⟨"A", some "2024-05-01"⟩, ⟨"B", some "2025-05-01"⟩] allSucceedOracle =
          [Effect.attemptConnect "B"]
      ∧ attemptStartupConnection NetworkState.unknown [] allFailOracle =
          [Effect.startFallbackTimer]
      ∧ Effect.startAccessPoint ∉
          attemptStartupConnection NetworkState.disconnected [⟨"C", none⟩] allFailOracle) :=
  ⟨⟨by rw [String.lt_iff_toList_lt]; decide, rfl⟩,
    c5_startup_order_and_fallback allFailOracle allSucceedOracle NetworkState.disconnected
      [⟨"C", none⟩] "A" "B" "2024-05-01" "2025-05-01"
      (by rw [String.lt_iff_toList_lt]; decide) rfl⟩

/-- C6: with no wireless device, `get_status` yields the wired-only
status — state `Disconnected`, interface "wired-only", signal strength 0
— and `scan_networks` returns the empty list. -/
theorem c6_wired_only_status (ap : APConfiguration) (m : Mgr)
    (accessPoints : List ApScan) (knownSsids : List String) (activeBssid : Option String) :
    (getStatusM ap none m).2 = some wiredOnlyStatus
    ∧ wiredOnlyStatus.state = NetworkState.disconnected
    ∧ wiredOnlyStatus.interface = some "wired-only"
    ∧ wiredOnlyStatus.signal_strength = some 0
    ∧ scanNetworks false accessPoints knownSsids activeBssid = [] :=
  ⟨rfl, rfl, rfl, rfl, rfl⟩

/-- C7: evaluating `_determine_security_type` at `flags = 0`,
`wpa_flags = 0`, `rsn_flags = 1` (RSN present but with neither the
`KEY_MGMT_PSK` nor the `KEY_MGMT_802_1X` bit): the function falls off the
end and yields `None`, not one of the six documented strings, against its
own `-> str` annotation. -/
theorem c7_security_type_falls_through : determineSecurityType 0 0 1 = none := rfl

/-- C8: `stop_access_point` called when no active connection matches the
hotspot naming or the configured AP SSID returns `true`, leaves the set
of active connections unchanged, and brings no connection down. -/
theorem c8_stop_without_ap (downOk : String → Bool) (conns : List Conn)
    (h : ∀ c ∈ conns, c.active = true → c.hasHotspotWord = false ∧ c.hasApSsid = false) :
    (stopAccessPoint downOk conns).1 = true
    ∧ activeConns (stopAccessPoint downOk conns).2.1 = activeConns conns
    ∧ (stopAccessPoint downOk conns).2.2.filter isDownEffect = [] := by
  have hmatch : ∀ c ∈ conns.filter (fun c => c.active), stopMatchActive c = false := by
    intro c hc
    have hm := List.mem_filter.mp hc
    have := h c hm.1 hm.2
    simp [stopMatchActive, this.1, this.2]
  have hfold : (conns.filter (fun c => c.active)).foldl (stopStep downOk) (conns, false, []) =
      (conns, false, []) := foldl_stopStep_id downOk _ hmatch _
  have hstop : stopAccessPoint downOk conns =
      (true, conns.filter fun c => !c.hasApSsid,
        (conns.filter fun c => c.hasApSsid).map (fun c => Effect.nmcliDeleteConnection c.name)
          ++ [Effect.sleep 3]) := by
    simp only [stopAccessPoint]
    rw [hfold]
    rfl
  rw [hstop]
  refine ⟨rfl, ?_, ?_⟩
  · unfold activeConns
    rw [List.filter_filter]
    apply List.filter_congr
    intro c hc
    by_cases ha : c.active = true
    · simp [ha, (h c hc ha).2]
    · simp [ha]
  · rw [List.filter_append, List.filter_eq_nil_iff.mpr ?_, List.nil_append]
    · rfl
    · intro e he
      rcases List.mem_map.mp he with ⟨c, _, rfl⟩
      simp [isDownEffect]

/-- C8, witness: stopping with only a non-matching active connection. -/
theorem c8_witness :
    (stopAccessPoint alwaysDownOk
        [{ name := "wired", isWifi := false, hasHotspotWord := false,
           hasApSsid := false, active := true }]).1 = true
    ∧ activeConns (stopAccessPoint alwaysDownOk
        [{ name := "wired", isWifi := false, hasHotspotWord := false,
           hasApSsid := false, active := true }]).2.1 =
      activeConns
        [{ name := "wired", isWifi := false, hasHotspotWord := false,
           hasApSsid := false, active := true }]
    ∧ (stopAccessPoint alwaysDownOk
        [{ name := "wired", isWifi := false, hasHotspotWord := false,
           hasApSsid := false, active := true }]).2.2.filter isDownEffect = [] :=
  c8_stop_without_ap alwaysDownOk _ (by decide)

/-- C9: while no WiFi device is present, a state update performs no
action at all — no callback notification, no fallback-timer start or
cancellation — even on the very first update, where `current_state`
changes from `Unknown` to `Disconnected`; the timer flag is untouched. -/
theorem c9_wired_only_no_effects (ap : APConfiguration) (m : Mgr) :
    (updateNetworkState ap none m).2 = []
    ∧ (updateNetworkState ap none m).1.currentState = NetworkState.disconnected
    ∧ (updateNetworkState ap none m).1.fallbackTimerRunning = m.fallbackTimerRunning :=
  ⟨rfl, rfl, rfl⟩

/-- C10: `last_status` starts out `None` and an erroring update leaves it
`None`, so after any sequence of failing updates `get_status` (itself
running one more failing update) returns `None` at the public
interface. -/
theorem c10_get_status_none_after_failures (ap : APConfiguration)
    (inputs : List (Option (Except Unit DevSnapshot)))
    (h : ∀ i ∈ inputs, i = some (Except.error ())) :
    (getStatusM ap (some (Except.error ())) (runUpdates ap inputs initMgr)).2 = none := by
  have key : ∀ l : List (Option (Except Unit DevSnapshot)),
      (∀ i ∈ l, i = some (Except.error ())) → runUpdates ap l initMgr = initMgr := by
    intro l
    induction l with
    | nil => intro _; rfl
    | cons i rest ih =>
      intro hl
      have hi := hl i (List.mem_cons_self i rest)
      subst hi
      have step : runUpdates ap (some (Except.error ()) :: rest) initMgr =
          runUpdates ap rest initMgr := rfl
      rw [step]
      exact ih fun j hj => hl j (List.mem_cons_of_mem _ hj)
  rw [key inputs h]
  rfl

/-- C10, witness: one failing update from the initial state. -/
theorem c10_witness :
    (getStatusM {} (some (Except.error ()))
      (runUpdates {} [some (Except.error ())] initMgr)).2 = none :=
  c10_get_status_none_after_failures {} [some (Except.error ())] (by simp)
